import Mathlib

/-!
Verification development for the secure-channel layer
(`src/core/src/comms/secure_channel.rs`).

The `SecureChannel` state and its operations are embedded shallowly:
byte buffers become `List Nat`, `usize` becomes `Nat` (with the source's
floating-point floor division embedded as exact `Nat` floor division),
Rust `Result` becomes the `Res` type below, and Rust panics become the
`Res.panic` outcome.  Collaborators that live elsewhere in the repository
(the security-policy catalog, the hash/HMAC and AES modules, the header
size constants) are modelled from the spec, as marked on each definition.
-/

/-- Security mode enum (`MessageSecurityMode` in `opcua_types`). -/
inductive MessageSecurityMode
  | None
  | Sign
  | SignAndEncrypt
  | Invalid
deriving DecidableEq

/-- Security policy enum (`crypto::SecurityPolicy`).  The source matches on
exactly these four shapes; every non-supported policy behaves like `None`
in the `_` match arms. -/
inductive SecurityPolicy
  | None
  | Basic128Rsa15
  | Basic256
  | Basic256Sha256
deriving DecidableEq

/-- The status codes this component returns (`opcua_types` constants). -/
inductive StatusCode
  | BAD_NONCE_INVALID
  | BAD_APPLICATION_SIGNATURE_INVALID
  | BAD_ENCODING_ERROR
  | BAD_DECODING_ERROR
deriving DecidableEq

/-- The distinct fatal branches of the source, identified by their origin:
the `unwrap` on absent keys, the two unsupported-policy aborts, the
invalid-mode abort, a `copy_from_slice` length mismatch, a slice index out
of range, and a `usize` subtraction underflow (debug abort; in release the
wrapped value feeds an allocation or index that aborts). -/
inductive PanicMsg
  | unwrapNone
  | unsupportedPolicy
  | unsupportedSecurityPolicy
  | invalidSecurityMode
  | copyFromSliceLen
  | sliceOutOfRange
  | usizeUnderflow
deriving DecidableEq

/-- Outcome of a Rust function that can return `Ok`, return `Err`, or panic. -/
inductive Res (α : Type)
  | ok (value : α)
  | err (status : StatusCode)
  | panic (msg : PanicMsg)
deriving DecidableEq

/-- Whether an outcome is a fatal abort of any kind. -/
def Res.isPanic {α : Type} : Res α → Bool
  | Res.panic _ => true
  | _ => false

/-- Whether an outcome is one of the fatal branches that guard the security
policy or the security mode (as opposed to the `unwrap`-on-`None` abort). -/
def Res.isPolicyModePanic {α : Type} : Res α → Bool
  | Res.panic PanicMsg.unsupportedPolicy => true
  | Res.panic PanicMsg.unsupportedSecurityPolicy => true
  | Res.panic PanicMsg.invalidSecurityMode => true
  | _ => false

/-- Whether an outcome is `Ok`. -/
def Res.isOk {α : Type} : Res α → Bool
  | Res.ok _ => true
  | _ => false

/-- `opcua_types::ByteString`: an optional byte vector. -/
structure ByteString where
  value : Option (List Nat)
deriving DecidableEq

/-- Modelled from the spec: the security header is consumed by this core only
through its serialized byte length (`security_header.byte_len()`). -/
structure SecurityHeader where
  byte_len : Nat
deriving DecidableEq

/-- Modelled from the spec: fixed message-chunk header size (message type,
is-final flag, chunk size, secure channel id) from the `comms` module. -/
def MESSAGE_CHUNK_HEADER_SIZE : Nat := 12

/-- Sequence header size; the source comment states it is 8 bytes. -/
def SEQUENCE_HEADER_SIZE : Nat := 8

/-- Modelled from the spec: `symmetric_key_size()` of the policy catalog
(nonce and symmetric key length; 128-bit for the legacy policy, 256-bit
otherwise). -/
def SecurityPolicy.symmetric_key_size : SecurityPolicy → Nat
  | SecurityPolicy.None => 0
  | SecurityPolicy.Basic128Rsa15 => 16
  | SecurityPolicy.Basic256 => 32
  | SecurityPolicy.Basic256Sha256 => 32

/-- Modelled from the spec: `symmetric_signature_size()` of the policy
catalog (HMAC-SHA1 digest for the legacy policy, HMAC-SHA256 digest
otherwise). -/
def SecurityPolicy.symmetric_signature_size : SecurityPolicy → Nat
  | SecurityPolicy.None => 0
  | SecurityPolicy.Basic128Rsa15 => 20
  | SecurityPolicy.Basic256 => 32
  | SecurityPolicy.Basic256Sha256 => 32

/-- Modelled from the spec: `plain_block_size()` of the policy catalog
(AES plaintext block, 16 bytes for every supported policy). -/
def SecurityPolicy.plain_block_size : SecurityPolicy → Nat
  | SecurityPolicy.None => 16
  | SecurityPolicy.Basic128Rsa15 => 16
  | SecurityPolicy.Basic256 => 16
  | SecurityPolicy.Basic256Sha256 => 16

/-- Modelled from the spec: `cipher_block_size()` of the policy catalog
(AES ciphertext block, 16 bytes for every supported policy). -/
def SecurityPolicy.cipher_block_size : SecurityPolicy → Nat
  | SecurityPolicy.None => 16
  | SecurityPolicy.Basic128Rsa15 => 16
  | SecurityPolicy.Basic256 => 16
  | SecurityPolicy.Basic256Sha256 => 16

/-- Whether the policy is one of the three supported symmetric policies
(the non-panicking arms of `expect_supported_security_policy`). -/
def SecurityPolicy.supported : SecurityPolicy → Bool
  | SecurityPolicy.Basic128Rsa15 => true
  | SecurityPolicy.Basic256 => true
  | SecurityPolicy.Basic256Sha256 => true
  | SecurityPolicy.None => false

/-- Modelled from the spec: the out-of-scope cryptographic collaborators.
`hmac_sha1`/`hmac_sha256` take key and data and yield the digest;
`verify_hmac_sha1`/`verify_hmac_sha256` take key, data and a claimed
signature; `aes_encrypt`/`aes_decrypt` take key, IV and a buffer and may
fail; `make_secure_channel_keys` is the policy collaborator
`derive_keys(secret_nonce, seed_nonce) -> (signing_key, encryption_key, iv)`
of spec section 6 — its first byte-string argument is the PRF secret and
its second is the PRF seed. -/
structure CryptoModel where
  hmac_sha1 : List Nat → List Nat → List Nat
  hmac_sha256 : List Nat → List Nat → List Nat
  verify_hmac_sha1 : List Nat → List Nat → List Nat → Bool
  verify_hmac_sha256 : List Nat → List Nat → List Nat → Bool
  aes_encrypt : List Nat → List Nat → List Nat → Option (List Nat)
  aes_decrypt : List Nat → List Nat → List Nat → Option (List Nat)
  make_secure_channel_keys : SecurityPolicy → List Nat → List Nat → List Nat × List Nat × List Nat

/-- The contract the spec states for the out-of-scope primitives: digest
lengths fixed by the algorithm, verification accepts a genuine digest,
and the cipher is total, length-preserving and invertible. -/
structure CryptoModel.Good (m : CryptoModel) : Prop where
  hmac_sha1_length : ∀ key data, (m.hmac_sha1 key data).length = 20
  hmac_sha256_length : ∀ key data, (m.hmac_sha256 key data).length = 32
  verify_sha1_of_hmac : ∀ key data, m.verify_hmac_sha1 key data (m.hmac_sha1 key data) = true
  verify_sha256_of_hmac : ∀ key data, m.verify_hmac_sha256 key data (m.hmac_sha256 key data) = true
  aes_encrypt_total : ∀ key iv pt, (m.aes_encrypt key iv pt).isSome
  aes_encrypt_length : ∀ key iv pt ct, m.aes_encrypt key iv pt = some ct → ct.length = pt.length
  aes_decrypt_encrypt : ∀ key iv pt ct, m.aes_encrypt key iv pt = some ct → m.aes_decrypt key iv ct = some pt

/-- `sub`-slice of a byte buffer: `buf[from..to]`. -/
def listSlice (l : List Nat) (a b : Nat) : List Nat := (l.drop a).take (b - a)

/-- The `SecureChannel` struct. -/
structure SecureChannel where
  security_mode : MessageSecurityMode
  security_policy : SecurityPolicy
  secure_channel_id : Nat
  token_created_at : Int
  token_lifetime : Nat
  token_id : Nat
  nonce : List Nat
  their_nonce : List Nat
  their_cert : Option (List Nat)
  keys : Option (List Nat × List Nat × List Nat)
  their_keys : Option (List Nat × List Nat × List Nat)
deriving DecidableEq

/-- `signing_enabled` (source line 271). -/
def SecureChannel.signing_enabled (c : SecureChannel) : Bool :=
  c.security_policy != SecurityPolicy.None && c.security_mode == MessageSecurityMode.Sign

/-- `encryption_enabled` (source line 276). -/
def SecureChannel.encryption_enabled (c : SecureChannel) : Bool :=
  c.security_policy != SecurityPolicy.None && c.security_mode == MessageSecurityMode.SignAndEncrypt

/-- `set_their_nonce` (source lines 83-94).  Mutation of `&mut self` is made
explicit: the result pairs the post-state with the returned `Result`. -/
def SecureChannel.set_their_nonce (c : SecureChannel) (their_nonce : ByteString) :
    SecureChannel × Res Unit :=
  match their_nonce.value with
  | some v =>
    if (c.signing_enabled || c.encryption_enabled) &&
        v.length != c.security_policy.symmetric_key_size then
      (c, Res.err StatusCode.BAD_NONCE_INVALID)
    else
      ({ c with their_nonce := v }, Res.ok ())
  | none => (c, Res.err StatusCode.BAD_NONCE_INVALID)

/-- `derive_keys` (source lines 129-134): own keys from
`make_secure_channel_keys(&self.nonce, &self.their_nonce)`, peer keys from
`make_secure_channel_keys(&self.their_nonce, &self.nonce)`. -/
def SecureChannel.derive_keys (c : SecureChannel) (m : CryptoModel) : SecureChannel :=
  { c with
    keys := some (m.make_secure_channel_keys c.security_policy c.nonce c.their_nonce),
    their_keys := some (m.make_secure_channel_keys c.security_policy c.their_nonce c.nonce) }

/-- `symmetric_signature_size` (source lines 143-149). -/
def SecureChannel.symmetric_signature_size (c : SecureChannel) : Nat :=
  if c.security_policy != SecurityPolicy.None then
    c.security_policy.symmetric_signature_size
  else 0

/-- The `max_body_size` local of `calc_chunk_padding` (source lines 162-175),
extracted as a definition.  The source computes the quotient through `f64`
with `.floor()`; it is embedded as exact `Nat` floor division, and `usize`
subtraction is embedded as truncated `Nat` subtraction. -/
def SecureChannel.max_body_size (c : SecureChannel) (security_header : SecurityHeader)
    (message_chunk_size : Nat) : Nat :=
  if message_chunk_size != 0 then
    let signature_size := c.security_policy.symmetric_signature_size
    let plain_text_block_size := c.security_policy.plain_block_size
    let cipher_text_block_size := c.security_policy.cipher_block_size
    let header_size := MESSAGE_CHUNK_HEADER_SIZE + security_header.byte_len
    let sequence_header_size := SEQUENCE_HEADER_SIZE
    plain_text_block_size *
        ((message_chunk_size - header_size - signature_size - 1) / cipher_text_block_size) -
      sequence_header_size
  else 0

/-- `calc_chunk_padding` (source lines 154-187). -/
def SecureChannel.calc_chunk_padding (c : SecureChannel) (bytes_to_write : Nat)
    (security_header : SecurityHeader) (message_chunk_size : Nat) : Nat :=
  if c.security_policy != SecurityPolicy.None &&
      c.security_mode != MessageSecurityMode.None then
    let signature_size := c.security_policy.symmetric_signature_size
    let plain_text_block_size := c.security_policy.plain_block_size
    let mbs := c.max_body_size security_header message_chunk_size
    if mbs > 0 && bytes_to_write > mbs then 0
    else plain_text_block_size - ((bytes_to_write + signature_size + 1) % plain_text_block_size)
  else 0

/-- `sign` (source lines 190-206): unwraps the local keys, then dispatches on
the policy.  The `hash::hmac_*` collaborator fills the caller's signature
buffer with the digest; here the digest itself is returned. -/
def SecureChannel.sign (c : SecureChannel) (m : CryptoModel) (src : List Nat) :
    Res (List Nat) :=
  match c.keys with
  | none => Res.panic PanicMsg.unwrapNone
  | some ks =>
    match c.security_policy with
    | SecurityPolicy.Basic128Rsa15 => Res.ok (m.hmac_sha1 ks.1 src)
    | SecurityPolicy.Basic256 => Res.ok (m.hmac_sha256 ks.1 src)
    | SecurityPolicy.Basic256Sha256 => Res.ok (m.hmac_sha256 ks.1 src)
    | SecurityPolicy.None => Res.panic PanicMsg.unsupportedPolicy

/-- `verify` (source lines 209-231): unwraps the peer keys, dispatches on the
policy, and maps a failed digest comparison to `BAD_APPLICATION_SIGNATURE_INVALID`. -/
def SecureChannel.verify (c : SecureChannel) (m : CryptoModel) (src signature : List Nat) :
    Res Unit :=
  match c.their_keys with
  | none => Res.panic PanicMsg.unwrapNone
  | some ks =>
    match c.security_policy with
    | SecurityPolicy.Basic128Rsa15 =>
      if m.verify_hmac_sha1 ks.1 src signature then Res.ok ()
      else Res.err StatusCode.BAD_APPLICATION_SIGNATURE_INVALID
    | SecurityPolicy.Basic256 =>
      if m.verify_hmac_sha256 ks.1 src signature then Res.ok ()
      else Res.err StatusCode.BAD_APPLICATION_SIGNATURE_INVALID
    | SecurityPolicy.Basic256Sha256 =>
      if m.verify_hmac_sha256 ks.1 src signature then Res.ok ()
      else Res.err StatusCode.BAD_APPLICATION_SIGNATURE_INVALID
    | SecurityPolicy.None => Res.panic PanicMsg.unsupportedPolicy

/-- `encrypt` (source lines 234-245): unwraps the local keys and runs the
cipher; a cipher failure becomes `BAD_ENCODING_ERROR`.  Note the source
never inspects the policy here. -/
def SecureChannel.encrypt (c : SecureChannel) (m : CryptoModel) (src : List Nat) :
    Res (List Nat) :=
  match c.keys with
  | none => Res.panic PanicMsg.unwrapNone
  | some ks =>
    match m.aes_encrypt ks.2.1 ks.2.2 src with
    | some ct => Res.ok ct
    | none => Res.err StatusCode.BAD_ENCODING_ERROR

/-- `decrypt` (source lines 248-259): unwraps the peer keys and runs the
cipher; a cipher failure becomes `BAD_DECODING_ERROR`. -/
def SecureChannel.decrypt (c : SecureChannel) (m : CryptoModel) (src : List Nat) :
    Res (List Nat) :=
  match c.their_keys with
  | none => Res.panic PanicMsg.unwrapNone
  | some ks =>
    match m.aes_decrypt ks.2.1 ks.2.2 src with
    | some pt => Res.ok pt
    | none => Res.err StatusCode.BAD_DECODING_ERROR

/-- `expect_supported_security_policy` (source lines 262-269). -/
def SecureChannel.expect_supported_security_policy (c : SecureChannel) : Res Unit :=
  match c.security_policy with
  | SecurityPolicy.Basic128Rsa15 => Res.ok ()
  | SecurityPolicy.Basic256 => Res.ok ()
  | SecurityPolicy.Basic256Sha256 => Res.ok ()
  | SecurityPolicy.None => Res.panic PanicMsg.unsupportedSecurityPolicy

/-- `encrypt_and_sign` (source lines 291-344), in-contract behaviour.  The
destination buffer is an explicit argument and the final destination contents
are returned.  Per the source's `copy_from_slice` contracts: in `Sign` mode
the whole destination is overwritten by `src[..s_to]` followed by the
signature; in `SignAndEncrypt` mode the scratch buffer `dst_tmp` holds
`src[..s_to]` followed by the signature, and the destination receives
`dst_tmp[..e_from]`, the ciphertext of `dst_tmp[e_from..e_to]`, and keeps its
own bytes past `e_to`.  This definition assumes the buffer-length contracts
hold; `encrypt_and_sign_checked` below additionally models the source's
slice-bounds and `copy_from_slice` aborts and agrees with this definition on
the contract domain (`encrypt_and_sign_checked_eq_none`/`_sign`/`_SAE`). -/
def SecureChannel.encrypt_and_sign (c : SecureChannel) (m : CryptoModel) (src : List Nat)
    (sign_info encrypt_info : Nat × Nat) (dst : List Nat) : Res (List Nat) :=
  let s_from := sign_info.1
  let s_to := sign_info.2
  let e_from := encrypt_info.1
  let e_to := encrypt_info.2
  match c.security_mode with
  | MessageSecurityMode.None => Res.ok src
  | MessageSecurityMode.Sign =>
    match c.expect_supported_security_policy with
    | Res.ok _ =>
      match c.sign m (listSlice src s_from s_to) with
      | Res.ok signature => Res.ok (src.take s_to ++ signature)
      | Res.err e => Res.err e
      | Res.panic p => Res.panic p
    | Res.err e => Res.err e
    | Res.panic p => Res.panic p
  | MessageSecurityMode.SignAndEncrypt =>
    match c.expect_supported_security_policy with
    | Res.ok _ =>
      if (e_to - e_from) % 16 != 0 then Res.err StatusCode.BAD_DECODING_ERROR
      else
        match c.sign m (listSlice src s_from s_to) with
        | Res.ok signature =>
          let dst_tmp := src.take s_to ++ signature
          match c.encrypt m (listSlice dst_tmp e_from e_to) with
          | Res.ok ct => Res.ok (dst_tmp.take e_from ++ ct ++ dst.drop e_to)
          | Res.err e => Res.err e
          | Res.panic p => Res.panic p
        | Res.err e => Res.err e
        | Res.panic p => Res.panic p
    | Res.err e => Res.err e
    | Res.panic p => Res.panic p
  | MessageSecurityMode.Invalid => Res.panic PanicMsg.invalidSecurityMode

/-- `decrypt_and_verify` (source lines 354-401), in-contract behaviour.  The
destination buffer is an explicit argument; in `None` and `Sign` mode the
source is copied over its first `src.len()` bytes, in `SignAndEncrypt` mode
the header prefix is copied, the encrypted range is replaced by the first
`e_to - e_from` decrypted bytes, and bytes past `e_to` keep their previous
destination contents.  This definition assumes the buffer-length contracts
hold; `decrypt_and_verify_checked` below additionally models the source's
slice-bounds and `copy_from_slice` aborts and agrees with this definition on
the contract domain (`decrypt_and_verify_checked_eq_none`/`_sign`/`_SAE`). -/
def SecureChannel.decrypt_and_verify (c : SecureChannel) (m : CryptoModel) (src : List Nat)
    (sign_info encrypt_info : Nat × Nat) (dst : List Nat) : Res (List Nat) :=
  let s_from := sign_info.1
  let s_to := sign_info.2
  let e_from := encrypt_info.1
  let e_to := encrypt_info.2
  match c.security_mode with
  | MessageSecurityMode.None => Res.ok (src ++ dst.drop src.length)
  | MessageSecurityMode.Sign =>
    match c.expect_supported_security_policy with
    | Res.ok _ =>
      let d := src ++ dst.drop src.length
      match c.verify m (listSlice d s_from s_to) (d.drop s_to) with
      | Res.ok _ => Res.ok d
      | Res.err e => Res.err e
      | Res.panic p => Res.panic p
    | Res.err e => Res.err e
    | Res.panic p => Res.panic p
  | MessageSecurityMode.SignAndEncrypt =>
    match c.expect_supported_security_policy with
    | Res.ok _ =>
      if (e_to - e_from) % 16 != 0 then Res.err StatusCode.BAD_DECODING_ERROR
      else
        match c.decrypt m (listSlice src e_from e_to) with
        | Res.ok pt =>
          let d := src.take e_from ++ pt.take (e_to - e_from) ++ dst.drop e_to
          match c.verify m (listSlice d s_from s_to) (d.drop s_to) with
          | Res.ok _ => Res.ok d
          | Res.err e => Res.err e
          | Res.panic p => Res.panic p
        | Res.err e => Res.err e
        | Res.panic p => Res.panic p
    | Res.err e => Res.err e
    | Res.panic p => Res.panic p
  | MessageSecurityMode.Invalid => Res.panic PanicMsg.invalidSecurityMode

/-- A simple deterministic accumulator used by the concrete crypto model. -/
def mixBytes (l : List Nat) : Nat := l.foldl (fun a b => a * 31 + b + 1) 7

/-- Digest of the concrete crypto model: `n` bytes determined by key and data. -/
def hmacDigest (n : Nat) (key data : List Nat) : List Nat :=
  (List.range n).map (fun i => (i + 37 * mixBytes key + 53 * mixBytes data) % 256)

/-- A concrete instance of the modelled collaborators, used to evaluate the
pipelines on explicit inputs. -/
def M0 : CryptoModel where
  hmac_sha1 := fun key data => hmacDigest 20 key data
  hmac_sha256 := fun key data => hmacDigest 32 key data
  verify_hmac_sha1 := fun key data signature => signature == hmacDigest 20 key data
  verify_hmac_sha256 := fun key data signature => signature == hmacDigest 32 key data
  aes_encrypt := fun key iv pt => some (pt.map (fun b => b + (mixBytes key + mixBytes iv)))
  aes_decrypt := fun key iv ct => some (ct.map (fun b => b - (mixBytes key + mixBytes iv)))
  make_secure_channel_keys := fun _ secret seed =>
    (secret ++ 0 :: seed, secret ++ 1 :: seed, secret ++ 2 :: seed)

/-- The concrete model satisfies the spec contract for the primitives. -/
theorem M0_good : M0.Good := by
  constructor
  · intro key data
    simp [M0, hmacDigest]
  · intro key data
    simp [M0, hmacDigest]
  · intro key data
    simp [M0]
  · intro key data
    simp [M0]
  · intro key iv pt
    simp [M0]
  · intro key iv pt ct h
    simp only [M0, Option.some.injEq] at h
    subst h
    simp
  · intro key iv pt ct h
    simp only [M0, Option.some.injEq] at h
    subst h
    simp only [M0, List.map_map]
    have hid : ∀ b : Nat,
        ((fun b => b - (mixBytes key + mixBytes iv)) ∘ fun b => b + (mixBytes key + mixBytes iv)) b
          = b := by
      intro b
      simp
    rw [funext hid]
    simp

/-- Taking no more than the left part of an append takes from the left part. -/
theorem take_append_left_of_le {l₁ l₂ : List Nat} {n : Nat} (h : n ≤ l₁.length) :
    (l₁ ++ l₂).take n = l₁.take n := List.take_append_of_le_length h

/-- Dropping at least the left part of an append drops into the right part. -/
theorem drop_append_right_of_le {l₁ l₂ : List Nat} {n : Nat} (h : l₁.length ≤ n) :
    (l₁ ++ l₂).drop n = l₂.drop (n - l₁.length) :=
  List.drop_append_eq_append_drop.trans (by simp [List.drop_eq_nil_of_le h])

/-- A baseline channel value with security disabled, used in concrete runs. -/
def chan0 : SecureChannel where
  security_mode := MessageSecurityMode.None
  security_policy := SecurityPolicy.None
  secure_channel_id := 0
  token_created_at := 0
  token_lifetime := 0
  token_id := 0
  nonce := [0]
  their_nonce := [9]
  their_cert := none
  keys := none
  their_keys := none

/-- A concrete channel in `Sign` mode with the `Basic256Sha256` policy. -/
def chanSign : SecureChannel :=
  { chan0 with
    security_policy := SecurityPolicy.Basic256Sha256,
    security_mode := MessageSecurityMode.Sign,
    nonce := [1],
    their_nonce := [2] }

/-- A concrete channel in `SignAndEncrypt` mode with `Basic256Sha256`. -/
def chanSAE : SecureChannel :=
  { chan0 with
    security_policy := SecurityPolicy.Basic256Sha256,
    security_mode := MessageSecurityMode.SignAndEncrypt,
    nonce := [1],
    their_nonce := [2] }

/-- A supported policy makes `expect_supported_security_policy` a no-op. -/
theorem expect_ok_of_supported {c : SecureChannel}
    (hsup : c.security_policy.supported = true) :
    c.expect_supported_security_policy = Res.ok () := by
  unfold SecureChannel.expect_supported_security_policy
  cases hpol : c.security_policy <;>
    simp [hpol, SecurityPolicy.supported] at hsup ⊢

/-- Claim C10: `set_their_nonce` is atomic on failure — whenever it returns an
error, the whole `SecureChannel` state is unchanged from before the call. -/
theorem c10_set_their_nonce_atomic (c : SecureChannel) (bs : ByteString) (e : StatusCode)
    (h : (c.set_their_nonce bs).2 = Res.err e) : (c.set_their_nonce bs).1 = c := by
  cases hv : bs.value with
  | none => simp [SecureChannel.set_their_nonce, hv]
  | some v =>
    by_cases hc : (c.signing_enabled || c.encryption_enabled) &&
        v.length != c.security_policy.symmetric_key_size
    · simp [SecureChannel.set_their_nonce, hv, hc]
    · simp [SecureChannel.set_their_nonce, hv, hc] at h

/-- Witness for C10 at a concrete input: an absent peer nonce value yields an
error and leaves the channel untouched. -/
theorem c10_set_their_nonce_atomic_witness :
    (chan0.set_their_nonce (ByteString.mk none)).1 = chan0 :=
  c10_set_their_nonce_atomic chan0 (ByteString.mk none) StatusCode.BAD_NONCE_INVALID (by decide)

/-- Counterexample to C3 as stated: with signing and encryption disabled, an
empty (but present) peer nonce is accepted and stored, not rejected with
`InvalidNonce`. -/
theorem c3_counterexample :
    (chan0.set_their_nonce (ByteString.mk (some []))).2 = Res.ok () ∧
    (chan0.set_their_nonce (ByteString.mk (some []))).1.their_nonce = [] := by
  decide

/-- Claim C3 (amended): `set_their_nonce` returns `BAD_NONCE_INVALID` when the
value is absent, or when signing/encryption is enabled and the length differs
from the policy's symmetric key size (which covers the empty value there);
otherwise — including an empty value while security is disabled — it stores
the given bytes verbatim. -/
theorem c3_set_their_nonce_amended (c : SecureChannel) (bs : ByteString) :
    (bs.value = none → c.set_their_nonce bs = (c, Res.err StatusCode.BAD_NONCE_INVALID)) ∧
    (∀ v, bs.value = some v →
      (c.signing_enabled || c.encryption_enabled) = true →
      v.length ≠ c.security_policy.symmetric_key_size →
      c.set_their_nonce bs = (c, Res.err StatusCode.BAD_NONCE_INVALID)) ∧
    (∀ v, bs.value = some v →
      ((c.signing_enabled || c.encryption_enabled) = false ∨
        v.length = c.security_policy.symmetric_key_size) →
      c.set_their_nonce bs = ({ c with their_nonce := v }, Res.ok ())) ∧
    ((c.set_their_nonce bs).2 = Res.err StatusCode.BAD_NONCE_INVALID ↔
      (bs.value = none ∨ ∃ v, bs.value = some v ∧
        (c.signing_enabled || c.encryption_enabled) = true ∧
        v.length ≠ c.security_policy.symmetric_key_size)) := by
  refine ⟨?_, ?_, ?_, ?_⟩
  · intro hv
    simp [SecureChannel.set_their_nonce, hv]
  · intro v hv hen hlen
    simp [SecureChannel.set_their_nonce, hv, hen, hlen]
  · intro v hv hcase
    rcases hcase with hdis | hlen
    · simp [SecureChannel.set_their_nonce, hv, hdis]
    · simp [SecureChannel.set_their_nonce, hv, hlen]
  · cases hv : bs.value with
    | none => simp [SecureChannel.set_their_nonce, hv]
    | some v =>
      by_cases hc : (c.signing_enabled || c.encryption_enabled) &&
          v.length != c.security_policy.symmetric_key_size
      · simp only [Bool.and_eq_true, bne_iff_ne] at hc
        simp [SecureChannel.set_their_nonce, hv, hc.1, hc.2]
      · simp only [Bool.and_eq_true, bne_iff_ne, not_and_or, Bool.not_eq_true,
          not_not] at hc
        rcases hc with hdis | hlen
        · simp [SecureChannel.set_their_nonce, hv, hdis]
        · simp [SecureChannel.set_their_nonce, hv, hlen]

/-- Witness for the amended C3: a 3-byte peer nonce is rejected by a channel
whose policy demands a 32-byte key. -/
theorem c3_set_their_nonce_amended_witness :
    chanSign.set_their_nonce (ByteString.mk (some [1, 2, 3])) =
      (chanSign, Res.err StatusCode.BAD_NONCE_INVALID) :=
  (c3_set_their_nonce_amended chanSign (ByteString.mk (some [1, 2, 3]))).2.1
    [1, 2, 3] rfl (by decide) (by decide)

/-- Claim C7: in `SignAndEncrypt` mode, with any crypto collaborators at all,
both pipelines reject an encrypted range whose length is not a multiple of 16
with `BAD_DECODING_ERROR` before invoking any transform. -/
theorem c7_block_alignment_guard (m : CryptoModel) (c : SecureChannel) (src dst : List Nat)
    (s_from s_to e_from e_to : Nat)
    (hmode : c.security_mode = MessageSecurityMode.SignAndEncrypt)
    (hsup : c.security_policy.supported = true)
    (halign : (e_to - e_from) % 16 ≠ 0) :
    c.encrypt_and_sign m src (s_from, s_to) (e_from, e_to) dst =
      Res.err StatusCode.BAD_DECODING_ERROR ∧
    c.decrypt_and_verify m src (s_from, s_to) (e_from, e_to) dst =
      Res.err StatusCode.BAD_DECODING_ERROR := by
  have hexp := expect_ok_of_supported hsup
  constructor
  · simp [SecureChannel.encrypt_and_sign, hmode, hexp, halign]
  · simp [SecureChannel.decrypt_and_verify, hmode, hexp, halign]

/-- Witness for C7 at a concrete input: a 5-byte encrypted range is rejected
by both pipelines. -/
theorem c7_block_alignment_guard_witness :
    chanSAE.encrypt_and_sign M0 [0, 1, 2, 3, 4] (0, 5) (0, 5) [0, 0, 0, 0, 0] =
      Res.err StatusCode.BAD_DECODING_ERROR ∧
    chanSAE.decrypt_and_verify M0 [0, 1, 2, 3, 4] (0, 5) (0, 5) [0, 0, 0, 0, 0] =
      Res.err StatusCode.BAD_DECODING_ERROR :=
  c7_block_alignment_guard M0 chanSAE [0, 1, 2, 3, 4] [0, 0, 0, 0, 0] 0 5 0 5
    (by decide) (by decide) (by decide)

/-- Every policy has a positive ciphertext block size. -/
theorem cipher_block_pos (p : SecurityPolicy) : 0 < p.cipher_block_size := by
  cases p <;> decide

/-- If `expect_supported_security_policy` returns, the policy is supported. -/
theorem supported_of_expect_ok {c : SecureChannel}
    (h : c.expect_supported_security_policy = Res.ok ()) :
    c.security_policy.supported = true := by
  unfold SecureChannel.expect_supported_security_policy at h
  cases hpol : c.security_policy <;> simp [hpol] at h ⊢ <;>
    simp [SecurityPolicy.supported]

/-- With a supported policy and present keys, `sign` succeeds and the digest
has the policy's symmetric signature size. -/
theorem sign_ok_of_supported {m : CryptoModel} {c : SecureChannel} {data : List Nat}
    (hG : m.Good) (hsup : c.security_policy.supported = true) (hk : c.keys.isSome) :
    ∃ sg, c.sign m data = Res.ok sg ∧
      sg.length = c.security_policy.symmetric_signature_size := by
  obtain ⟨ks, hks⟩ := Option.isSome_iff_exists.mp hk
  cases hpol : c.security_policy with
  | None => simp [hpol, SecurityPolicy.supported] at hsup
  | Basic128Rsa15 =>
    exact ⟨m.hmac_sha1 ks.1 data,
      by simp [SecureChannel.sign, hks, hpol],
      by simp [hpol, SecurityPolicy.symmetric_signature_size, hG.hmac_sha1_length]⟩
  | Basic256 =>
    exact ⟨m.hmac_sha256 ks.1 data,
      by simp [SecureChannel.sign, hks, hpol],
      by simp [hpol, SecurityPolicy.symmetric_signature_size, hG.hmac_sha256_length]⟩
  | Basic256Sha256 =>
    exact ⟨m.hmac_sha256 ks.1 data,
      by simp [SecureChannel.sign, hks, hpol],
      by simp [hpol, SecurityPolicy.symmetric_signature_size, hG.hmac_sha256_length]⟩

/-- A successful `sign` always yields a digest of the policy's signature size. -/
theorem sign_ok_length {m : CryptoModel} {c : SecureChannel} {data sg : List Nat}
    (hG : m.Good) (h : c.sign m data = Res.ok sg) :
    sg.length = c.security_policy.symmetric_signature_size := by
  unfold SecureChannel.sign at h
  cases hks : c.keys with
  | none => simp [hks] at h
  | some ks =>
    cases hpol : c.security_policy <;> simp [hks, hpol] at h <;>
      simp [← h, hpol, SecurityPolicy.symmetric_signature_size,
        hG.hmac_sha1_length, hG.hmac_sha256_length]

/-- Inversion for a successful `encrypt`. -/
theorem encrypt_ok_inv {m : CryptoModel} {c : SecureChannel} {src ct : List Nat}
    (h : c.encrypt m src = Res.ok ct) :
    ∃ ks, c.keys = some ks ∧ m.aes_encrypt ks.2.1 ks.2.2 src = some ct := by
  unfold SecureChannel.encrypt at h
  cases hks : c.keys with
  | none => simp [hks] at h
  | some ks =>
    cases henc : m.aes_encrypt ks.2.1 ks.2.2 src with
    | none => simp [hks, henc] at h
    | some ct2 =>
      simp [hks, henc] at h
      exact ⟨ks, rfl, by rw [henc, h]⟩

/-- Inversion for a successful `SignAndEncrypt` run of `encrypt_and_sign`:
the policy was supported, the encrypted range was block aligned, signing and
encryption succeeded, and the output is header prefix + ciphertext + the
untouched destination tail. -/
theorem encrypt_and_sign_SAE_ok {m : CryptoModel} {c : SecureChannel}
    {src dst out : List Nat} {s_from s_to e_from e_to : Nat}
    (hmode : c.security_mode = MessageSecurityMode.SignAndEncrypt)
    (hok : c.encrypt_and_sign m src (s_from, s_to) (e_from, e_to) dst = Res.ok out) :
    ∃ ks sg ct, c.keys = some ks ∧
      c.security_policy.supported = true ∧
      (e_to - e_from) % 16 = 0 ∧
      c.sign m (listSlice src s_from s_to) = Res.ok sg ∧
      m.aes_encrypt ks.2.1 ks.2.2 (listSlice (src.take s_to ++ sg) e_from e_to) = some ct ∧
      out = (src.take s_to ++ sg).take e_from ++ ct ++ dst.drop e_to := by
  unfold SecureChannel.encrypt_and_sign at hok
  simp only [hmode] at hok
  cases hexp : c.expect_supported_security_policy with
  | err e => simp [hexp] at hok
  | panic p => simp [hexp] at hok
  | ok u =>
    cases u
    have hsup := supported_of_expect_ok hexp
    simp only [hexp] at hok
    by_cases halign : (e_to - e_from) % 16 = 0
    · simp only [halign, bne_self_eq_false, Bool.false_eq_true, if_false] at hok
      cases hsig : c.sign m (listSlice src s_from s_to) with
      | err e => simp [hsig] at hok
      | panic p => simp [hsig] at hok
      | ok sg =>
        simp only [hsig] at hok
        cases henc : c.encrypt m (listSlice (src.take s_to ++ sg) e_from e_to) with
        | err e => simp [henc] at hok
        | panic p => simp [henc] at hok
        | ok ct =>
          simp only [henc, Res.ok.injEq] at hok
          obtain ⟨ks, hks, haes⟩ := encrypt_ok_inv henc
          exact ⟨ks, sg, ct, hks, hsup, halign, rfl, haes, hok.symm⟩
    · have : ((e_to - e_from) % 16 != 0) = true := by simp [halign]
      simp [this] at hok

/-- Claim C5: with crypto enabled and a non-zero chunk size, `max_body_size`
is `plain_block_size * q - sequence_header_size` where `q` is the exact
floor of `(chunk - header - signature - 1) / cipher_block_size` (the source's
`f64` division embedded as integer floor division), with `header` the fixed
message-header size plus the security header's byte length; and whenever
`max_body_size` is positive and exceeded by `bytes_to_write`, the padding
is 0.  The hypotheses pin the domain where the `usize` subtractions cannot
underflow and where the source's `as f64` conversion is exact and its
division by the 16-byte cipher block (a power of two) is exact, i.e.
dividends below `2 ^ 53`, so the `f64` floor coincides with integer floor
division there. -/
theorem c5_max_body_size (c : SecureChannel) (sh : SecurityHeader) (mcs bytes_to_write : Nat)
    (hp : c.security_policy ≠ SecurityPolicy.None)
    (hm : c.security_mode ≠ MessageSecurityMode.None)
    (hmcs : mcs ≠ 0)
    (_hfit : MESSAGE_CHUNK_HEADER_SIZE + sh.byte_len +
      c.security_policy.symmetric_signature_size + 1 ≤ mcs)
    (_hbound : mcs < 2 ^ 53)
    (hseq : SEQUENCE_HEADER_SIZE ≤ c.security_policy.plain_block_size *
      ((mcs - (MESSAGE_CHUNK_HEADER_SIZE + sh.byte_len) -
          c.security_policy.symmetric_signature_size - 1) /
        c.security_policy.cipher_block_size)) :
    (∃ q, c.max_body_size sh mcs + SEQUENCE_HEADER_SIZE =
        c.security_policy.plain_block_size * q ∧
      c.security_policy.cipher_block_size * q ≤
        mcs - (MESSAGE_CHUNK_HEADER_SIZE + sh.byte_len) -
          c.security_policy.symmetric_signature_size - 1 ∧
      mcs - (MESSAGE_CHUNK_HEADER_SIZE + sh.byte_len) -
          c.security_policy.symmetric_signature_size - 1 <
        c.security_policy.cipher_block_size * (q + 1)) ∧
    (0 < c.max_body_size sh mcs → c.max_body_size sh mcs < bytes_to_write →
      c.calc_chunk_padding bytes_to_write sh mcs = 0) := by
  have hmb : c.max_body_size sh mcs =
      c.security_policy.plain_block_size *
          ((mcs - (MESSAGE_CHUNK_HEADER_SIZE + sh.byte_len) -
              c.security_policy.symmetric_signature_size - 1) /
            c.security_policy.cipher_block_size) -
        SEQUENCE_HEADER_SIZE := by
    unfold SecureChannel.max_body_size
    simp [hmcs]
  constructor
  · refine ⟨(mcs - (MESSAGE_CHUNK_HEADER_SIZE + sh.byte_len) -
      c.security_policy.symmetric_signature_size - 1) /
        c.security_policy.cipher_block_size, ?_, ?_, ?_⟩
    · rw [hmb, Nat.sub_add_cancel hseq]
    · rw [Nat.mul_comm]
      exact Nat.div_mul_le_self _ _
    · have h1 := Nat.div_add_mod
        (mcs - (MESSAGE_CHUNK_HEADER_SIZE + sh.byte_len) -
          c.security_policy.symmetric_signature_size - 1)
        c.security_policy.cipher_block_size
      have h2 : (mcs - (MESSAGE_CHUNK_HEADER_SIZE + sh.byte_len) -
          c.security_policy.symmetric_signature_size - 1) %
            c.security_policy.cipher_block_size <
          c.security_policy.cipher_block_size :=
        Nat.mod_lt _ (cipher_block_pos c.security_policy)
      rw [Nat.mul_succ]
      omega
  · intro h1 h2
    unfold SecureChannel.calc_chunk_padding
    simp [hp, hm, h1, h2]

/-- Witness for C5 at a concrete input: `Basic256Sha256`, a 4-byte security
header, an 8192-byte chunk target and a 9000-byte body. -/
theorem c5_max_body_size_witness :
    (∃ q, chanSAE.max_body_size (SecurityHeader.mk 4) 8192 + SEQUENCE_HEADER_SIZE =
        chanSAE.security_policy.plain_block_size * q ∧
      chanSAE.security_policy.cipher_block_size * q ≤
        8192 - (MESSAGE_CHUNK_HEADER_SIZE + 4) -
          chanSAE.security_policy.symmetric_signature_size - 1 ∧
      8192 - (MESSAGE_CHUNK_HEADER_SIZE + 4) -
          chanSAE.security_policy.symmetric_signature_size - 1 <
        chanSAE.security_policy.cipher_block_size * (q + 1)) ∧
    (0 < chanSAE.max_body_size (SecurityHeader.mk 4) 8192 →
      chanSAE.max_body_size (SecurityHeader.mk 4) 8192 < 9000 →
      chanSAE.calc_chunk_padding 9000 (SecurityHeader.mk 4) 8192 = 0) :=
  c5_max_body_size chanSAE (SecurityHeader.mk 4) 8192 9000
    (by decide) (by decide) (by decide) (by decide) (by decide) (by decide)

/-- A concrete `Sign`-mode channel with keys installed, for the C6 run. -/
def chanSign6 : SecureChannel :=
  { chanSign with keys := some ([3], [4], [5]), their_keys := some ([3], [4], [5]) }

/-- The 40-byte plaintext chunk buffer of the C6 run: 8 signed-content bytes
followed by 32 reserved signature bytes. -/
def src6 : List Nat := List.range 40

/-- Length of the payload of a successful run, `none` otherwise. -/
def Res.okLength : Res (List Nat) → Option Nat
  | Res.ok l => some l.length
  | _ => none

/-- Counterexample to C6 as stated: in `Sign` mode the destination buffer has
the same length as the source (the source already reserves the final
`symmetric_signature_size` bytes for the signature), so the output length is
the input length — not the input length plus the signature size. -/
theorem c6_counterexample :
    Res.okLength (chanSign6.encrypt_and_sign M0 src6 (0, 8) (0, 0) (List.replicate 40 0)) =
      some 40 ∧
    (40 : Nat) ≠ 40 + SecurityPolicy.Basic256Sha256.symmetric_signature_size := by
  constructor
  · rfl
  · decide

/-- Claim C6 (amended): in `Sign` mode with a supported policy and keys
present, `encrypt_and_sign` writes `src[..s_to]` through unchanged and
appends the signature over the signed range directly after it; because the
caller reserves the final `symmetric_signature_size` bytes of the input for
that signature, the output length equals the input length (that is,
`s_to` plus the signature size), not the input length plus the signature
size. -/
theorem c6_sign_output_amended (m : CryptoModel) (c : SecureChannel) (src dst : List Nat)
    (s_from s_to e_from e_to : Nat)
    (hG : m.Good)
    (hmode : c.security_mode = MessageSecurityMode.Sign)
    (hsup : c.security_policy.supported = true)
    (hk : c.keys.isSome)
    (hlen : src.length = s_to + c.security_policy.symmetric_signature_size) :
    ∃ signature, c.sign m (listSlice src s_from s_to) = Res.ok signature ∧
      signature.length = c.security_policy.symmetric_signature_size ∧
      c.encrypt_and_sign m src (s_from, s_to) (e_from, e_to) dst =
        Res.ok (src.take s_to ++ signature) ∧
      (src.take s_to ++ signature).take s_to = src.take s_to ∧
      (src.take s_to ++ signature).length = src.length := by
  obtain ⟨sg, hsg, hsglen⟩ :=
    @sign_ok_of_supported m c (listSlice src s_from s_to) hG hsup hk
  have hst : s_to ≤ src.length := by omega
  have htklen : (src.take s_to).length = s_to := by
    simp [List.length_take]
    omega
  refine ⟨sg, hsg, hsglen, ?_, ?_, ?_⟩
  · unfold SecureChannel.encrypt_and_sign
    simp [hmode, expect_ok_of_supported hsup, hsg]
  · rw [take_append_left_of_le (by rw [htklen]), List.take_take]
    simp
  · simp [List.length_append, htklen, hsglen]
    omega

/-- Witness for the amended C6 at a concrete input: the 40-byte buffer gives
a 40-byte output whose first 8 bytes are the input's. -/
theorem c6_sign_output_amended_witness :
    ∃ signature, chanSign6.sign M0 (listSlice src6 0 8) = Res.ok signature ∧
      signature.length = chanSign6.security_policy.symmetric_signature_size ∧
      chanSign6.encrypt_and_sign M0 src6 (0, 8) (0, 0) (List.replicate 40 0) =
        Res.ok (src6.take 8 ++ signature) ∧
      (src6.take 8 ++ signature).take 8 = src6.take 8 ∧
      (src6.take 8 ++ signature).length = src6.length :=
  c6_sign_output_amended M0 chanSign6 src6 (List.replicate 40 0) 0 8 0 0
    M0_good (by decide) (by decide) (by decide) (by decide)

/-- Claim C8: in `SignAndEncrypt` mode, on any successful run with sanely
nested ranges (the encrypted range starts after the headers, inside the
signed portion, and ends within the buffer), the output bytes before the
encrypted range equal the input bytes exactly, and the bytes after the
encrypted range are not touched by the cipher (they keep the destination
buffer's contents). -/
theorem c8_encrypt_preserves_header (m : CryptoModel) (c : SecureChannel)
    (src dst out : List Nat) (s_from s_to e_from e_to : Nat)
    (hG : m.Good)
    (hmode : c.security_mode = MessageSecurityMode.SignAndEncrypt)
    (hef : e_from ≤ s_to) (hst : s_to ≤ src.length) (hefet : e_from ≤ e_to)
    (het : e_to ≤ s_to + c.security_policy.symmetric_signature_size)
    (hok : c.encrypt_and_sign m src (s_from, s_to) (e_from, e_to) dst = Res.ok out) :
    out.take e_from = src.take e_from ∧ out.drop e_to = dst.drop e_to := by
  obtain ⟨ks, sg, ct, hks, hsup, halign, hsig, haes, hout⟩ :=
    encrypt_and_sign_SAE_ok hmode hok
  have hsglen := sign_ok_length hG hsig
  have htklen : (src.take s_to).length = s_to := by
    simp [List.length_take]
    omega
  have htmplen : (src.take s_to ++ sg).length = s_to +
      c.security_policy.symmetric_signature_size := by
    simp [List.length_append, htklen, hsglen]
  have hpfx : (src.take s_to ++ sg).take e_from = src.take e_from := by
    rw [take_append_left_of_le (by omega), List.take_take]
    congr 1
    omega
  have hpfxlen : ((src.take s_to ++ sg).take e_from).length = e_from := by
    simp [List.length_take, htmplen]
    omega
  have hctlen : ct.length = e_to - e_from := by
    have := hG.aes_encrypt_length _ _ _ _ haes
    rw [this]
    simp [listSlice, List.length_take, List.length_drop, htmplen]
    omega
  constructor
  · rw [hout, List.append_assoc,
      take_append_left_of_le hpfxlen.ge,
      hpfx, List.take_take]
    congr 1
    omega
  · have hlen2 : (((src.take s_to ++ sg).take e_from) ++ ct).length = e_to := by
      simp [List.length_append, hpfxlen, hctlen]
      omega
    rw [hout, drop_append_right_of_le (le_of_eq hlen2), hlen2]
    simp

/-- `sign` never produces the unsupported-policy or invalid-mode fatal
branches when the policy is supported. -/
theorem sign_not_policy_panic {m : CryptoModel} {c : SecureChannel} {src : List Nat}
    (hsup : c.security_policy.supported = true) :
    (c.sign m src).isPolicyModePanic = false := by
  unfold SecureChannel.sign
  cases hks : c.keys with
  | none => simp [Res.isPolicyModePanic]
  | some ks =>
    cases hpol : c.security_policy <;>
      simp [hpol, SecurityPolicy.supported] at hsup ⊢ <;>
      simp [Res.isPolicyModePanic]

/-- `verify` never produces the policy/mode fatal branches when the policy is
supported. -/
theorem verify_not_policy_panic {m : CryptoModel} {c : SecureChannel}
    {src signature : List Nat} (hsup : c.security_policy.supported = true) :
    (c.verify m src signature).isPolicyModePanic = false := by
  unfold SecureChannel.verify
  cases hks : c.their_keys with
  | none => simp [Res.isPolicyModePanic]
  | some ks =>
    cases hpol : c.security_policy <;>
      simp [hpol, SecurityPolicy.supported] at hsup ⊢ <;>
      split <;> simp [Res.isPolicyModePanic]

/-- `encrypt` never produces the policy/mode fatal branches at all (the
source does not inspect the policy there). -/
theorem encrypt_not_policy_panic {m : CryptoModel} {c : SecureChannel} {src : List Nat} :
    (c.encrypt m src).isPolicyModePanic = false := by
  unfold SecureChannel.encrypt
  cases hks : c.keys with
  | none => simp [Res.isPolicyModePanic]
  | some ks =>
    cases henc : m.aes_encrypt ks.2.1 ks.2.2 src <;> simp [henc, Res.isPolicyModePanic]

/-- `decrypt` never produces the policy/mode fatal branches at all. -/
theorem decrypt_not_policy_panic {m : CryptoModel} {c : SecureChannel} {src : List Nat} :
    (c.decrypt m src).isPolicyModePanic = false := by
  unfold SecureChannel.decrypt
  cases hks : c.their_keys with
  | none => simp [Res.isPolicyModePanic]
  | some ks =>
    cases hdec : m.aes_decrypt ks.2.1 ks.2.2 src <;> simp [hdec, Res.isPolicyModePanic]

/-- A policy/mode panic classification only depends on the message, not on
the payload type of the outcome. -/
theorem isPolicyModePanic_retype {α β : Type} {p : PanicMsg}
    (h : (Res.panic p : Res α).isPolicyModePanic = false) :
    (Res.panic p : Res β).isPolicyModePanic = false := by
  cases p <;> simp [Res.isPolicyModePanic] at h ⊢

/-- `encrypt_and_sign` avoids the policy/mode fatal branches under the
precondition (supported policy, mode not `Invalid`). -/
theorem encrypt_and_sign_not_policy_panic {m : CryptoModel} {c : SecureChannel}
    {src dst : List Nat} {si ei : Nat × Nat}
    (hsup : c.security_policy.supported = true)
    (hmode : c.security_mode ≠ MessageSecurityMode.Invalid) :
    (c.encrypt_and_sign m src si ei dst).isPolicyModePanic = false := by
  unfold SecureChannel.encrypt_and_sign
  cases hm : c.security_mode with
  | Invalid => exact absurd hm hmode
  | None => simp [hm, Res.isPolicyModePanic]
  | Sign =>
    simp only [hm, expect_ok_of_supported hsup]
    split
    · simp [Res.isPolicyModePanic]
    · simp [Res.isPolicyModePanic]
    · next p hsig =>
      have h2 := @sign_not_policy_panic m c (listSlice src si.1 si.2) hsup
      rw [hsig] at h2
      exact h2
  | SignAndEncrypt =>
    simp only [hm, expect_ok_of_supported hsup]
    split
    · simp [Res.isPolicyModePanic]
    · split
      · next sg hsig =>
        split
        · simp [Res.isPolicyModePanic]
        · simp [Res.isPolicyModePanic]
        · next p henc =>
          have h2 := @encrypt_not_policy_panic m c
            (listSlice (src.take si.2 ++ sg) ei.1 ei.2)
          rw [henc] at h2
          exact h2
      · simp [Res.isPolicyModePanic]
      · next p hsig =>
        have h2 := @sign_not_policy_panic m c (listSlice src si.1 si.2) hsup
        rw [hsig] at h2
        exact h2

/-- `decrypt_and_verify` avoids the policy/mode fatal branches under the
precondition (supported policy, mode not `Invalid`). -/
theorem decrypt_and_verify_not_policy_panic {m : CryptoModel} {c : SecureChannel}
    {src dst : List Nat} {si ei : Nat × Nat}
    (hsup : c.security_policy.supported = true)
    (hmode : c.security_mode ≠ MessageSecurityMode.Invalid) :
    (c.decrypt_and_verify m src si ei dst).isPolicyModePanic = false := by
  unfold SecureChannel.decrypt_and_verify
  cases hm : c.security_mode with
  | Invalid => exact absurd hm hmode
  | None => simp [hm, Res.isPolicyModePanic]
  | Sign =>
    simp only [hm, expect_ok_of_supported hsup]
    split
    · simp [Res.isPolicyModePanic]
    · simp [Res.isPolicyModePanic]
    · next p hv =>
      have h2 := @verify_not_policy_panic m c
        (listSlice (src ++ dst.drop src.length) si.1 si.2)
        ((src ++ dst.drop src.length).drop si.2) hsup
      rw [hv] at h2
      exact isPolicyModePanic_retype h2
  | SignAndEncrypt =>
    simp only [hm, expect_ok_of_supported hsup]
    split
    · simp [Res.isPolicyModePanic]
    · split
      · next pt hdec =>
        split
        · simp [Res.isPolicyModePanic]
        · simp [Res.isPolicyModePanic]
        · next p hv =>
          have h2 := @verify_not_policy_panic m c
            (listSlice (src.take ei.1 ++ pt.take (ei.2 - ei.1) ++ dst.drop ei.2) si.1 si.2)
            ((src.take ei.1 ++ pt.take (ei.2 - ei.1) ++ dst.drop ei.2).drop si.2)
            hsup
          rw [hv] at h2
          exact isPolicyModePanic_retype h2
      · simp [Res.isPolicyModePanic]
      · next p hdec =>
        have h2 := @decrypt_not_policy_panic m c (listSlice src ei.1 ei.2)
        rw [hdec] at h2
        exact h2

/-- A channel with an unsupported policy but with key material installed. -/
def chanBadPolicy : SecureChannel :=
  { chan0 with keys := some ([3], [4], [5]), their_keys := some ([3], [4], [5]) }

/-- Counterexample to C9 as stated: `encrypt` and `decrypt` do not inspect the
security policy at all — with an unsupported policy (here `None`) and keys
present they run the cipher and return successfully instead of aborting. -/
theorem c9_counterexample :
    chanBadPolicy.security_policy.supported = false ∧
    (chanBadPolicy.encrypt M0 [1, 2, 3]).isPanic = false ∧
    (chanBadPolicy.decrypt M0 [1, 2, 3]).isPanic = false := by
  decide

/-- Claim C9 (amended): `sign` and `verify` abort fatally whenever the policy
is unsupported; both composite pipelines abort fatally in mode `Invalid`;
`encrypt`/`decrypt` do not inspect the policy (they never reach a policy/mode
fatal branch); and under the precondition — supported policy, mode not
`Invalid` — none of the operations can reach the unsupported-policy or
invalid-mode fatal branches. -/
theorem c9_fatal_branches_amended (m : CryptoModel) (c : SecureChannel)
    (src signature dst : List Nat) (s_from s_to e_from e_to : Nat) :
    (c.security_policy.supported = false →
      (c.sign m src).isPanic = true ∧ (c.verify m src signature).isPanic = true) ∧
    (c.security_mode = MessageSecurityMode.Invalid →
      c.encrypt_and_sign m src (s_from, s_to) (e_from, e_to) dst =
        Res.panic PanicMsg.invalidSecurityMode ∧
      c.decrypt_and_verify m src (s_from, s_to) (e_from, e_to) dst =
        Res.panic PanicMsg.invalidSecurityMode) ∧
    ((c.encrypt m src).isPolicyModePanic = false ∧
      (c.decrypt m src).isPolicyModePanic = false) ∧
    (c.security_policy.supported = true → c.security_mode ≠ MessageSecurityMode.Invalid →
      (c.encrypt_and_sign m src (s_from, s_to) (e_from, e_to) dst).isPolicyModePanic = false ∧
      (c.decrypt_and_verify m src (s_from, s_to) (e_from, e_to) dst).isPolicyModePanic = false ∧
      (c.sign m src).isPolicyModePanic = false ∧
      (c.verify m src signature).isPolicyModePanic = false) := by
  refine ⟨?_, ?_, ⟨encrypt_not_policy_panic, decrypt_not_policy_panic⟩, ?_⟩
  · intro hsup
    have hpol : c.security_policy = SecurityPolicy.None := by
      cases hpol : c.security_policy <;> simp [hpol, SecurityPolicy.supported] at hsup ⊢
    constructor
    · unfold SecureChannel.sign
      cases hks : c.keys <;> simp [hks, hpol, Res.isPanic]
    · unfold SecureChannel.verify
      cases hks : c.their_keys <;> simp [hks, hpol, Res.isPanic]
  · intro hmode
    constructor
    · unfold SecureChannel.encrypt_and_sign
      simp [hmode]
    · unfold SecureChannel.decrypt_and_verify
      simp [hmode]
  · intro hsup hmode
    exact ⟨encrypt_and_sign_not_policy_panic hsup hmode,
      decrypt_and_verify_not_policy_panic hsup hmode,
      sign_not_policy_panic hsup, verify_not_policy_panic hsup⟩

/-- Witness for the amended C9 at a concrete input: a supported-policy,
`Sign`-mode channel reaches no policy/mode fatal branch, and a channel with
an unsupported policy makes `sign` abort. -/
theorem c9_fatal_branches_amended_witness :
    ((chanSign6.encrypt_and_sign M0 src6 (0, 8) (0, 40) (List.replicate 40 0)).isPolicyModePanic
        = false ∧
      (chanSign6.decrypt_and_verify M0 src6 (0, 8) (0, 40) (List.replicate 40 0)).isPolicyModePanic
        = false ∧
      (chanSign6.sign M0 src6).isPolicyModePanic = false ∧
      (chanSign6.verify M0 src6 []).isPolicyModePanic = false) ∧
    ((chanBadPolicy.sign M0 src6).isPanic = true ∧
      (chanBadPolicy.verify M0 src6 []).isPanic = true) :=
  ⟨(c9_fatal_branches_amended M0 chanSign6 src6 [] (List.replicate 40 0) 0 8 0 40).2.2.2
      (by decide) (by decide),
    (c9_fatal_branches_amended M0 chanBadPolicy src6 [] (List.replicate 40 0) 0 8 0 40).1
      (by decide)⟩

/-- Claim C2, evaluated at the failing input: `derive_keys` passes
`(own nonce, peer nonce)` — in that order — to the key-derivation collaborator
whose first argument is the PRF secret, so the local key triple is derived
with secret = own nonce, while the claim (and OPC UA Table 33, quoted in the
source's own doc comment) requires secret = peer nonce; the two derivations
disagree. -/
theorem c2_derive_keys_code_bug :
    (chanSign.derive_keys M0).keys =
      some (M0.make_secure_channel_keys SecurityPolicy.Basic256Sha256 [1] [2]) ∧
    (chanSign.derive_keys M0).their_keys =
      some (M0.make_secure_channel_keys SecurityPolicy.Basic256Sha256 [2] [1]) ∧
    M0.make_secure_channel_keys SecurityPolicy.Basic256Sha256 [1] [2] ≠
      M0.make_secure_channel_keys SecurityPolicy.Basic256Sha256 [2] [1] := by
  decide

/-- A 64-byte plaintext chunk buffer (16 header bytes, 16 body bytes, then a
32-byte reserved signature slot). -/
def src64 : List Nat := List.range 64

/-- The concrete output chunk of the C8 run. -/
def out8 : List Nat :=
  match (chanSAE.derive_keys M0).encrypt_and_sign M0 src64 (0, 32) (16, 64)
      (List.replicate 64 0) with
  | Res.ok l => l
  | Res.err _ => []
  | Res.panic _ => []

/-- Witness for C8 at a concrete input: the 16 header bytes of the output
chunk equal the input's and the bytes past the encrypted range keep the
destination buffer's contents. -/
theorem c8_encrypt_preserves_header_witness :
    out8.take 16 = src64.take 16 ∧ out8.drop 64 = (List.replicate 64 0).drop 64 :=
  c8_encrypt_preserves_header M0 (chanSAE.derive_keys M0) src64 (List.replicate 64 0)
    out8 0 32 16 64 M0_good (by decide) (by decide) (by decide) (by decide) (by decide)
    (by decide)

/-- Panic-faithful variant of `encrypt_and_sign`: models, in source order,
the `usize` subtraction aborts, the slice-bound panics and the
`copy_from_slice` length panics of source lines 298-338 that
`encrypt_and_sign` leaves out, and computes the same result once every
contract holds.  In particular, in `SignAndEncrypt` mode the scratch buffer
is `dst.len() + 16` bytes (line 324), so the line-331 `copy_from_slice`
aborts unless `dst.len() + 16 == src.len()`, and the cipher's destination
slice `&mut dst[e_from..e_to]` (line 334) aborts unless `e_to <= dst.len()`. -/
def SecureChannel.encrypt_and_sign_checked (c : SecureChannel) (m : CryptoModel)
    (src : List Nat) (sign_info encrypt_info : Nat × Nat) (dst : List Nat) :
    Res (List Nat) :=
  let s_from := sign_info.1
  let s_to := sign_info.2
  let e_from := encrypt_info.1
  let e_to := encrypt_info.2
  match c.security_mode with
  | MessageSecurityMode.None =>
    -- dst.copy_from_slice(src), line 298
    if dst.length ≠ src.length then Res.panic PanicMsg.copyFromSliceLen
    else Res.ok src
  | MessageSecurityMode.Sign =>
    match c.expect_supported_security_policy with
    | Res.ok _ =>
      -- let signature_len = src.len() - s_to, line 304
      if src.length < s_to then Res.panic PanicMsg.usizeUnderflow
      -- &src[s_from..s_to], line 308
      else if s_to < s_from then Res.panic PanicMsg.sliceOutOfRange
      else
        match c.sign m (listSlice src s_from s_to) with
        | Res.ok signature =>
          -- &dst[..s_to], line 309
          if dst.length < s_to then Res.panic PanicMsg.sliceOutOfRange
          -- dst[s_to..].copy_from_slice(&signature), line 311
          else if dst.length ≠ src.length then Res.panic PanicMsg.copyFromSliceLen
          else Res.ok (src.take s_to ++ signature)
        | Res.err e => Res.err e
        | Res.panic p => Res.panic p
    | Res.err e => Res.err e
    | Res.panic p => Res.panic p
  | MessageSecurityMode.SignAndEncrypt =>
    match c.expect_supported_security_policy with
    | Res.ok _ =>
      -- e_to - e_from, line 319
      if e_to < e_from then Res.panic PanicMsg.usizeUnderflow
      else if (e_to - e_from) % 16 != 0 then Res.err StatusCode.BAD_DECODING_ERROR
      -- let signature_len = src.len() - s_to, line 325
      else if src.length < s_to then Res.panic PanicMsg.usizeUnderflow
      -- &src[s_from..s_to], line 329
      else if s_to < s_from then Res.panic PanicMsg.sliceOutOfRange
      else
        match c.sign m (listSlice src s_from s_to) with
        | Res.ok signature =>
          -- &dst_tmp[..s_to] with dst_tmp.len() = dst.len() + 16, line 330
          if dst.length + 16 < s_to then Res.panic PanicMsg.sliceOutOfRange
          -- dst_tmp[s_to..].copy_from_slice(&signature), line 331
          else if dst.length + 16 ≠ src.length then Res.panic PanicMsg.copyFromSliceLen
          -- &dst_tmp[e_from..e_to], line 334
          else if dst.length + 16 < e_to then Res.panic PanicMsg.sliceOutOfRange
          -- &mut dst[e_from..e_to], line 334
          else if dst.length < e_to then Res.panic PanicMsg.sliceOutOfRange
          else
            let dst_tmp := src.take s_to ++ signature
            match c.encrypt m (listSlice dst_tmp e_from e_to) with
            | Res.ok ct => Res.ok (dst_tmp.take e_from ++ ct ++ dst.drop e_to)
            | Res.err e => Res.err e
            | Res.panic p => Res.panic p
        | Res.err e => Res.err e
        | Res.panic p => Res.panic p
    | Res.err e => Res.err e
    | Res.panic p => Res.panic p
  | MessageSecurityMode.Invalid => Res.panic PanicMsg.invalidSecurityMode

/-- Panic-faithful variant of `decrypt_and_verify`: models, in source order,
the slice-bound and `copy_from_slice` aborts of source lines 358-394 that
`decrypt_and_verify` leaves out, and computes the same result once every
contract holds. -/
def SecureChannel.decrypt_and_verify_checked (c : SecureChannel) (m : CryptoModel)
    (src : List Nat) (sign_info encrypt_info : Nat × Nat) (dst : List Nat) :
    Res (List Nat) :=
  let s_from := sign_info.1
  let s_to := sign_info.2
  let e_from := encrypt_info.1
  let e_to := encrypt_info.2
  match c.security_mode with
  | MessageSecurityMode.None =>
    -- &dst[..len] with len = src.len(), line 361
    if dst.length < src.length then Res.panic PanicMsg.sliceOutOfRange
    else Res.ok (src ++ dst.drop src.length)
  | MessageSecurityMode.Sign =>
    match c.expect_supported_security_policy with
    | Res.ok _ =>
      -- &dst[..len] with len = src.len(), line 369
      if dst.length < src.length then Res.panic PanicMsg.sliceOutOfRange
      -- &dst[s_from..s_to] / &dst[s_to..], line 372
      else if s_to < s_from then Res.panic PanicMsg.sliceOutOfRange
      else if dst.length < s_to then Res.panic PanicMsg.sliceOutOfRange
      else
        let d := src ++ dst.drop src.length
        match c.verify m (listSlice d s_from s_to) (d.drop s_to) with
        | Res.ok _ => Res.ok d
        | Res.err e => Res.err e
        | Res.panic p => Res.panic p
    | Res.err e => Res.err e
    | Res.panic p => Res.panic p
  | MessageSecurityMode.SignAndEncrypt =>
    match c.expect_supported_security_policy with
    | Res.ok _ =>
      -- e_to - e_from, line 379
      if e_to < e_from then Res.panic PanicMsg.usizeUnderflow
      else if (e_to - e_from) % 16 != 0 then Res.err StatusCode.BAD_DECODING_ERROR
      -- &dst[..e_from] / &src[..e_from], line 385
      else if dst.length < e_from then Res.panic PanicMsg.sliceOutOfRange
      else if src.length < e_from then Res.panic PanicMsg.sliceOutOfRange
      -- &src[e_from..e_to], line 389
      else if src.length < e_to then Res.panic PanicMsg.sliceOutOfRange
      else
        match c.decrypt m (listSlice src e_from e_to) with
        | Res.ok pt =>
          -- &dst[e_from..e_to], line 390
          if dst.length < e_to then Res.panic PanicMsg.sliceOutOfRange
          -- &dst[s_from..s_to] / &dst[s_to..], line 393
          else if s_to < s_from then Res.panic PanicMsg.sliceOutOfRange
          else if dst.length < s_to then Res.panic PanicMsg.sliceOutOfRange
          else
            let d := src.take e_from ++ pt.take (e_to - e_from) ++ dst.drop e_to
            match c.verify m (listSlice d s_from s_to) (d.drop s_to) with
            | Res.ok _ => Res.ok d
            | Res.err e => Res.err e
            | Res.panic p => Res.panic p
        | Res.err e => Res.err e
        | Res.panic p => Res.panic p
    | Res.err e => Res.err e
    | Res.panic p => Res.panic p
  | MessageSecurityMode.Invalid => Res.panic PanicMsg.invalidSecurityMode

/-- `expect_supported_security_policy` never returns an `Err`. -/
theorem expect_ne_err {c : SecureChannel} {e : StatusCode} :
    c.expect_supported_security_policy ≠ Res.err e := by
  unfold SecureChannel.expect_supported_security_policy
  cases c.security_policy <;> simp

/-- `sign` never returns an `Err` (it succeeds or aborts). -/
theorem sign_ne_err {m : CryptoModel} {c : SecureChannel} {data : List Nat}
    {e : StatusCode} : c.sign m data ≠ Res.err e := by
  unfold SecureChannel.sign
  cases c.keys with
  | none => simp
  | some ks => cases c.security_policy <;> simp

/-- On the `None`-mode contract domain (`dst` as long as `src`, per the
documented calling convention) the checked and in-contract `encrypt_and_sign`
agree. -/
theorem encrypt_and_sign_checked_eq_none {m : CryptoModel} {c : SecureChannel}
    {src dst : List Nat} {si ei : Nat × Nat}
    (h : c.security_mode = MessageSecurityMode.None)
    (hdst : dst.length = src.length) :
    c.encrypt_and_sign_checked m src si ei dst = c.encrypt_and_sign m src si ei dst := by
  unfold SecureChannel.encrypt_and_sign_checked SecureChannel.encrypt_and_sign
  simp [h, hdst]

/-- On the `Sign`-mode contract domain the checked and in-contract
`encrypt_and_sign` agree. -/
theorem encrypt_and_sign_checked_eq_sign {m : CryptoModel} {c : SecureChannel}
    {src dst : List Nat} {ei : Nat × Nat} {s_from s_to : Nat}
    (h : c.security_mode = MessageSecurityMode.Sign)
    (hs : s_from ≤ s_to) (hst : s_to ≤ src.length)
    (hdst : dst.length = src.length) :
    c.encrypt_and_sign_checked m src (s_from, s_to) ei dst =
      c.encrypt_and_sign m src (s_from, s_to) ei dst := by
  unfold SecureChannel.encrypt_and_sign_checked SecureChannel.encrypt_and_sign
  simp only [h]
  cases hexp : c.expect_supported_security_policy with
  | err e => simp [hexp]
  | panic p => simp [hexp]
  | ok u =>
    cases u
    have h1 : ¬ src.length < s_to := by omega
    have h2 : ¬ s_to < s_from := by omega
    have h3 : ¬ dst.length < s_to := by omega
    have h4 : ¬ dst.length ≠ src.length := by omega
    simp only [hexp]
    rw [if_neg h1, if_neg h2]
    cases hsig : c.sign m (listSlice src s_from s_to) <;>
      simp [hsig, if_neg h3, if_neg h4]

/-- On the `SignAndEncrypt`-mode contract domain (destination 16 bytes
shorter than the source, encrypted range inside the destination) the checked
and in-contract `encrypt_and_sign` agree. -/
theorem encrypt_and_sign_checked_eq_SAE {m : CryptoModel} {c : SecureChannel}
    {src dst : List Nat} {s_from s_to e_from e_to : Nat}
    (h : c.security_mode = MessageSecurityMode.SignAndEncrypt)
    (hee : e_from ≤ e_to) (hs : s_from ≤ s_to) (hst : s_to ≤ src.length)
    (hdst : dst.length + 16 = src.length) (het : e_to ≤ dst.length) :
    c.encrypt_and_sign_checked m src (s_from, s_to) (e_from, e_to) dst =
      c.encrypt_and_sign m src (s_from, s_to) (e_from, e_to) dst := by
  unfold SecureChannel.encrypt_and_sign_checked SecureChannel.encrypt_and_sign
  simp only [h]
  cases hexp : c.expect_supported_security_policy with
  | err e => simp [hexp]
  | panic p => simp [hexp]
  | ok u =>
    cases u
    simp only [hexp]
    rw [if_neg (Nat.not_lt.mpr hee)]
    by_cases hg : ((e_to - e_from) % 16 != 0) = true
    · simp [hg]
    · rw [if_neg hg, if_neg hg]
      have h1 : ¬ src.length < s_to := by omega
      have h2 : ¬ s_to < s_from := by omega
      rw [if_neg h1, if_neg h2]
      cases hsig : c.sign m (listSlice src s_from s_to) with
      | err e => simp [hsig]
      | panic p => simp [hsig]
      | ok sg =>
        have h3 : ¬ dst.length + 16 < s_to := by omega
        have h4 : ¬ dst.length + 16 ≠ src.length := by omega
        have h5 : ¬ dst.length + 16 < e_to := by omega
        have h6 : ¬ dst.length < e_to := by omega
        simp only [hsig]
        rw [if_neg h3, if_neg h4, if_neg h5, if_neg h6]

/-- On the `None`-mode contract domain the checked and in-contract
`decrypt_and_verify` agree. -/
theorem decrypt_and_verify_checked_eq_none {m : CryptoModel} {c : SecureChannel}
    {src dst : List Nat} {si ei : Nat × Nat}
    (h : c.security_mode = MessageSecurityMode.None)
    (hdst : src.length ≤ dst.length) :
    c.decrypt_and_verify_checked m src si ei dst =
      c.decrypt_and_verify m src si ei dst := by
  unfold SecureChannel.decrypt_and_verify_checked SecureChannel.decrypt_and_verify
  have h1 : ¬ dst.length < src.length := by omega
  simp [h, h1]

/-- On the `Sign`-mode contract domain the checked and in-contract
`decrypt_and_verify` agree. -/
theorem decrypt_and_verify_checked_eq_sign {m : CryptoModel} {c : SecureChannel}
    {src dst : List Nat} {ei : Nat × Nat} {s_from s_to : Nat}
    (h : c.security_mode = MessageSecurityMode.Sign)
    (hdl : src.length ≤ dst.length)
    (hs : s_from ≤ s_to) (hst : s_to ≤ dst.length) :
    c.decrypt_and_verify_checked m src (s_from, s_to) ei dst =
      c.decrypt_and_verify m src (s_from, s_to) ei dst := by
  unfold SecureChannel.decrypt_and_verify_checked SecureChannel.decrypt_and_verify
  simp only [h]
  cases hexp : c.expect_supported_security_policy with
  | err e => simp [hexp]
  | panic p => simp [hexp]
  | ok u =>
    cases u
    have h1 : ¬ dst.length < src.length := by omega
    have h2 : ¬ s_to < s_from := by omega
    have h3 : ¬ dst.length < s_to := by omega
    simp only [hexp]
    rw [if_neg h1, if_neg h2, if_neg h3]

/-- On the `SignAndEncrypt`-mode contract domain the checked and in-contract
`decrypt_and_verify` agree. -/
theorem decrypt_and_verify_checked_eq_SAE {m : CryptoModel} {c : SecureChannel}
    {src dst : List Nat} {s_from s_to e_from e_to : Nat}
    (h : c.security_mode = MessageSecurityMode.SignAndEncrypt)
    (hee : e_from ≤ e_to) (hesrc : e_to ≤ src.length) (hedst : e_to ≤ dst.length)
    (hs : s_from ≤ s_to) (hstd : s_to ≤ dst.length) :
    c.decrypt_and_verify_checked m src (s_from, s_to) (e_from, e_to) dst =
      c.decrypt_and_verify m src (s_from, s_to) (e_from, e_to) dst := by
  unfold SecureChannel.decrypt_and_verify_checked SecureChannel.decrypt_and_verify
  simp only [h]
  cases hexp : c.expect_supported_security_policy with
  | err e => simp [hexp]
  | panic p => simp [hexp]
  | ok u =>
    cases u
    simp only [hexp]
    rw [if_neg (Nat.not_lt.mpr hee)]
    by_cases hg : ((e_to - e_from) % 16 != 0) = true
    · simp [hg]
    · rw [if_neg hg, if_neg hg]
      have h1 : ¬ dst.length < e_from := by omega
      have h2 : ¬ src.length < e_from := by omega
      have h3 : ¬ src.length < e_to := by omega
      rw [if_neg h1, if_neg h2, if_neg h3]
      cases hdec : c.decrypt m (listSlice src e_from e_to) with
      | err e => simp [hdec]
      | panic p => simp [hdec]
      | ok pt =>
        have h4 : ¬ dst.length < e_to := by omega
        have h5 : ¬ s_to < s_from := by omega
        have h6 : ¬ dst.length < s_to := by omega
        simp only [hdec]
        rw [if_neg h4, if_neg h5, if_neg h6]

/-- Claim C1, evaluated against the panic-faithful model at the failing
configuration: with the round-trip claim's correct ranges (signed range
inside the buffer, encrypted range block aligned and ending at the buffer
end), the `SignAndEncrypt` branch of `encrypt_and_sign` aborts for every
destination buffer — the scratch buffer holds `dst.len() + 16` bytes, so the
line-331 `copy_from_slice` panics unless `dst.len() + 16 == src.len()`, and
in that remaining case the cipher's destination slice `&mut dst[e_from..e_to]`
with `e_to = src.len() > dst.len()` is out of range.  The spec's round trip
therefore cannot even complete its first step in `SignAndEncrypt` mode. -/
theorem c1_round_trip_code_bug (m : CryptoModel) (c : SecureChannel)
    (src dst : List Nat) (s_from s_to e_from : Nat)
    (hmode : c.security_mode = MessageSecurityMode.SignAndEncrypt)
    (hs : s_from ≤ s_to) (hst : s_to ≤ src.length) (hef : e_from ≤ src.length)
    (halign : (src.length - e_from) % 16 = 0) :
    (c.encrypt_and_sign_checked m src (s_from, s_to) (e_from, src.length) dst).isPanic =
      true := by
  unfold SecureChannel.encrypt_and_sign_checked
  simp only [hmode]
  cases hexp : c.expect_supported_security_policy with
  | err e => exact absurd hexp expect_ne_err
  | panic p => simp [hexp, Res.isPanic]
  | ok u =>
    cases u
    have h1 : ¬ src.length < e_from := by omega
    have h2 : ¬ src.length < s_to := by omega
    have h3 : ¬ s_to < s_from := by omega
    have hg : ¬ (((src.length - e_from) % 16 != 0) = true) := by simp [halign]
    simp only [hexp]
    rw [if_neg h1, if_neg hg, if_neg h2, if_neg h3]
    cases hsig : c.sign m (listSlice src s_from s_to) with
    | err e => exact absurd hsig sign_ne_err
    | panic p => simp [Res.isPanic]
    | ok sg =>
      dsimp only
      by_cases h4 : dst.length + 16 < s_to
      · rw [if_pos h4]
        simp [Res.isPanic]
      · rw [if_neg h4]
        by_cases h5 : dst.length + 16 = src.length
        · have h6 : ¬ dst.length + 16 ≠ src.length := by omega
          have h7 : ¬ dst.length + 16 < src.length := by omega
          have h8 : dst.length < src.length := by omega
          rw [if_neg h6, if_neg h7, if_pos h8]
          simp [Res.isPanic]
        · rw [if_pos h5]
          simp [Res.isPanic]

/-- Witness for the C1 code-bug theorem at a concrete input: the 64-byte
`Basic256Sha256` chunk of the round-trip scenario, with derived keys and a
64-byte destination buffer, aborts in `encrypt_and_sign`. -/
theorem c1_round_trip_code_bug_witness :
    ((chanSAE.derive_keys M0).encrypt_and_sign_checked M0 src64 (0, 32)
      (16, src64.length) (List.replicate 64 0)).isPanic = true :=
  c1_round_trip_code_bug M0 (chanSAE.derive_keys M0) src64 (List.replicate 64 0)
    0 32 16 (by decide) (by decide) (by decide) (by decide) (by decide)
